import Mathlib

/-!
Shallow embedding of `src/app.py` (student_mentor service).

Modelling conventions:
* Python floats are modelled as exact rationals (`ℚ`); Python ints as `ℤ`/`Nat`.
* `None`-able values are `Option`s; Python dict truthiness (`if not d:`) is the
  `Option` being `none` (an absent object) — an empty dict behaves identically
  through `.get`, which this embedding also covers via all-`none` records.
* Network interactions are oracles passed explicitly: each HTTP attempt's
  outcome is a parameter, and a call's embedding returns its result together
  with the final token-cache state and the number of HTTP requests it issued.
-/

namespace StudentMentor

/-- Python float modulo `x % m` for positive `m`: `x - m * ⌊x / m⌋`
(used by `score_bedtime` / `score_wake_time` in `app.py`). -/
def pyFloatMod (x m : ℚ) : ℚ := x - m * ⌊x / m⌋

/-- Python `int(q)` on a float value: truncation toward zero. -/
def pyInt (q : ℚ) : ℤ := if 0 ≤ q then ⌊q⌋ else ⌈q⌉

/-- Lowercase a string character-wise (model of Python `str.lower` on the
ASCII alphabet actually used by the scoring term lists). -/
def pyLower (s : String) : String := String.mk (s.toList.map Char.toLower)

/-- `needle in hay` for Python strings: contiguous-substring membership. -/
def substrMem (needle : List Char) : List Char → Bool
  | [] => needle.isEmpty
  | c :: rest => needle.isPrefixOf (c :: rest) || substrMem needle rest

/-- Python `needle in hay` on `String`s. -/
def pyInStr (needle hay : String) : Bool := substrMem needle.toList hay.toList

/-- Whitespace for Python `str.strip` (space, tab, newline, CR, VT, FF). -/
def pySpace (c : Char) : Bool :=
  c.isWhitespace || c = Char.ofNat 11 || c = Char.ofNat 12

/-- Python `str.strip()` with no argument. -/
def pyStrip (s : String) : String :=
  String.mk (((s.toList.dropWhile pySpace).reverse.dropWhile pySpace).reverse)

/-- Python slice `s[:n]`. -/
def pyTake (n : Nat) (s : String) : String := String.mk (s.toList.take n)

/- ------------------------------------------------------------------ -/
/- Per-metric habit scorers (app.py lines 147-366).                    -/
/- ------------------------------------------------------------------ -/

/-- `score_sleep_quality` (app.py:147): 0-2, missing → 1. -/
def score_sleep_quality (quality : Option ℚ) : ℚ :=
  match quality with
  | none => 1
  | some q =>
    let q := max 0 (min 10 q)
    if 8 ≤ q then 0 else if 6 ≤ q then 1 else 2

/-- `score_sleep_hours` (app.py:165): optimal 7-9h. -/
def score_sleep_hours (hours : Option ℚ) : ℚ :=
  match hours with
  | none => 1
  | some h =>
    if 7 ≤ h ∧ h ≤ 9 then 0
    else if (6 ≤ h ∧ h < 7) ∨ (9 < h ∧ h ≤ 10) then 1
    else 2

/-- `score_bedtime` (app.py:178): normalized by `% 24`, optimal 22-23. -/
def score_bedtime (bedtime : Option ℚ) : ℚ :=
  match bedtime with
  | none => 1
  | some b =>
    let b := pyFloatMod b 24
    if 22 ≤ b ∧ b ≤ 23 then 0
    else if (21 ≤ b ∧ b < 22) ∨ (0 ≤ b ∧ b < 1) then 1
    else 2

/-- `score_wake_time` (app.py:195): normalized by `% 24`, optimal 6-7. -/
def score_wake_time (wake : Option ℚ) : ℚ :=
  match wake with
  | none => 1
  | some w =>
    let w := pyFloatMod w 24
    if 6 ≤ w ∧ w ≤ 7 then 0
    else if (5 ≤ w ∧ w < 6) ∨ (7 < w ∧ w ≤ 8) then 1
    else 2

/-- `score_water_intake` (app.py:212): optimal 2-3 litres. -/
def score_water_intake (liters : Option ℚ) : ℚ :=
  match liters with
  | none => 1
  | some l =>
    if 2 ≤ l ∧ l ≤ 3 then 0
    else if (3/2 ≤ l ∧ l < 2) ∨ (3 < l ∧ l ≤ 4) then 1
    else 2

/-- `score_junk_food_frequency` (app.py:225). -/
def score_junk_food_frequency (freq : Option ℚ) : ℚ :=
  match freq with
  | none => 1
  | some f => if f ≤ 1 then 0 else if f ≤ 3 then 1 else 2

/-- `score_meals_consumed` (app.py:239): optimal 2.5-3.5. -/
def score_meals_consumed (meals : Option ℚ) : ℚ :=
  match meals with
  | none => 1
  | some m =>
    if 5/2 ≤ m ∧ m ≤ 7/2 then 0
    else if (2 ≤ m ∧ m < 5/2) ∨ (7/2 < m ∧ m ≤ 4) then 1
    else 2

/-- `score_exercise_hours` (app.py:252): optimal 1-2h. -/
def score_exercise_hours (hours : Option ℚ) : ℚ :=
  match hours with
  | none => 1
  | some h =>
    if 1 ≤ h ∧ h ≤ 2 then 0
    else if (1/2 ≤ h ∧ h < 1) ∨ (2 < h ∧ h ≤ 3) then 1
    else 2

/-- `score_calories_burned` (app.py:265): clamped at 0, monthly target 10000. -/
def score_calories_burned (calories : Option ℚ) : ℚ :=
  match calories with
  | none => 1
  | some c =>
    let c := max 0 c
    if 10000 ≤ c then 0 else if 10000 * (7/10) ≤ c then 1 else 2

/-- `score_exercise_type` (app.py:283): case-insensitive substring membership
in curated term lists. -/
def score_exercise_type (ty : Option String) : ℚ :=
  match ty with
  | none => 1
  | some t =>
    let tl := pyLower t
    let highIntensity := ["running", "cycling", "swimming", "hiit", "crossfit"]
    let moderate := ["walking", "yoga", "pilates", "dancing"]
    if highIntensity.any (fun term => pyInStr term tl) then 0
    else if moderate.any (fun term => pyInStr term tl) then 1
    else 2

/-- `score_screen_time_hours` (app.py:300). -/
def score_screen_time_hours (hours : Option ℚ) : ℚ :=
  match hours with
  | none => 1
  | some h => if h ≤ 2 then 0 else if h ≤ 4 then 1 else 2

/-- `score_pre_sleep_screen_time` (app.py:313). -/
def score_pre_sleep_screen_time (hours : Option ℚ) : ℚ :=
  match hours with
  | none => 1
  | some h => if h ≤ 1/2 then 0 else if h ≤ 1 then 1 else 2

/-- `score_media_duration` (app.py:326). -/
def score_media_duration (hours : Option ℚ) : ℚ :=
  match hours with
  | none => 1
  | some h => if h ≤ 1 then 0 else if h ≤ 2 then 1 else 2

/-- `score_educational_content_count` (app.py:339). -/
def score_educational_content_count (count : Option ℚ) : ℚ :=
  match count with
  | none => 1
  | some c => if 20 ≤ c then 0 else if 10 ≤ c then 1 else 2

/-- `score_platform` (app.py:352): case-insensitive substring membership. -/
def score_platform (platform : Option String) : ℚ :=
  match platform with
  | none => 1
  | some p =>
    let pl := pyLower p
    let educational := ["khan academy", "coursera", "edx", "udemy", "youtube education"]
    let neutral := ["youtube", "netflix", "spotify"]
    if educational.any (fun term => pyInStr term pl) then 0
    else if neutral.any (fun term => pyInStr term pl) then 1
    else 2

/-- `HabitsSummaryResponse`: the 15 optional metrics read by the scorer. -/
structure HabitsSummary where
  averageSleepQuality : Option ℚ := none
  averageSleepHours : Option ℚ := none
  averageBedtime : Option ℚ := none
  averageWakeTime : Option ℚ := none
  averageWaterIntake : Option ℚ := none
  averageJunkFoodFrequency : Option ℚ := none
  averageMealsConsumed : Option ℚ := none
  averageExerciseHours : Option ℚ := none
  totalCaloriesBurned : Option ℚ := none
  mostCommonExerciseType : Option String := none
  averageScreenTimeHours : Option ℚ := none
  averagePreSleepScreenTime : Option ℚ := none
  averageMediaDuration : Option ℚ := none
  educationalContentCount : Option ℚ := none
  mostUsedPlatform : Option String := none

/-- Sum of the 15 per-metric sub-scores of a present habits summary. -/
def habitsSubScoreSum (h : HabitsSummary) : ℚ :=
  score_sleep_quality h.averageSleepQuality
  + score_sleep_hours h.averageSleepHours
  + score_bedtime h.averageBedtime
  + score_wake_time h.averageWakeTime
  + score_water_intake h.averageWaterIntake
  + score_junk_food_frequency h.averageJunkFoodFrequency
  + score_meals_consumed h.averageMealsConsumed
  + score_exercise_hours h.averageExerciseHours
  + score_calories_burned h.totalCaloriesBurned
  + score_exercise_type h.mostCommonExerciseType
  + score_screen_time_hours h.averageScreenTimeHours
  + score_pre_sleep_screen_time h.averagePreSleepScreenTime
  + score_media_duration h.averageMediaDuration
  + score_educational_content_count h.educationalContentCount
  + score_platform h.mostUsedPlatform

/-- `calculate_habits_stress_score` (app.py:369): missing summary → 15.0,
otherwise the sum of the 15 sub-scores clamped into [0,30]. -/
def calculate_habits_stress_score (habits : Option HabitsSummary) : ℚ :=
  match habits with
  | none => 15
  | some h => min 30 (max 0 (habitsSubScoreSum h))

/- ------------------------------------------------------------------ -/
/- Python/JSON value model (for guidance parsing and loose fields).     -/
/- ------------------------------------------------------------------ -/

/-- Values a `json.loads` call can produce (subset actually reachable here:
no exponent-notation numbers or unicode escapes, which none of the analysed
paths depend on). -/
inductive PyVal where
  | none
  | bool (b : Bool)
  | int (n : Int)
  | float (q : ℚ)
  | str (s : String)
  | list (xs : List PyVal)
  | dict (kvs : List (String × PyVal))
deriving Repr

/-- The single-quote character used by Python container reprs. -/
def squote : String := String.mk [Char.ofNat 39]

/-- Left/right brace as strings (for dict reprs). -/
def lbraceStr : String := String.mk [Char.ofNat 123]

def rbraceStr : String := String.mk [Char.ofNat 125]

mutual

/-- Python `str(v)` (container reprs approximated without escape handling;
float rendering approximated — no analysed path depends on either). -/
def pyStr : PyVal → String
  | .none => "None"
  | .bool b => if b then "True" else "False"
  | .int n => toString n
  | .float q => toString q
  | .str s => s
  | .list xs => "[" ++ pyReprSep xs ++ "]"
  | .dict kvs => lbraceStr ++ pyReprPairs kvs ++ rbraceStr

/-- Python `repr(v)` as used inside container reprs. -/
def pyRepr : PyVal → String
  | .none => "None"
  | .bool b => if b then "True" else "False"
  | .int n => toString n
  | .float q => toString q
  | .str s => squote ++ s ++ squote
  | .list xs => "[" ++ pyReprSep xs ++ "]"
  | .dict kvs => lbraceStr ++ pyReprPairs kvs ++ rbraceStr

def pyReprSep : List PyVal → String
  | [] => ""
  | [x] => pyRepr x
  | x :: rest => pyRepr x ++ ", " ++ pyReprSep rest

def pyReprPairs : List (String × PyVal) → String
  | [] => ""
  | [(k, v)] => squote ++ k ++ squote ++ ": " ++ pyRepr v
  | (k, v) :: rest => squote ++ k ++ squote ++ ": " ++ pyRepr v ++ ", " ++ pyReprPairs rest

end

/-- Value of a decimal digit string. -/
def digitsNat (ds : List Char) : Nat := ds.foldl (fun a c => 10 * a + (c.toNat - 48)) 0

/-- Whitespace accepted between JSON tokens. -/
def jsonWs (c : Char) : Bool := c = ' ' || c = Char.ofNat 9 || c = Char.ofNat 10 || c = Char.ofNat 13

mutual

/-- One JSON value, fuel-bounded (fuel ≥ input length suffices). -/
def jsonVal (fuel : Nat) (cs : List Char) : Option (PyVal × List Char) :=
  match fuel with
  | 0 => Option.none
  | fuel + 1 =>
    let cs := cs.dropWhile jsonWs
    match cs with
    | [] => Option.none
    | c :: rest =>
      if c = Char.ofNat 34 then
        match jsonString fuel rest [] with
        | Option.some (s, rest2) => Option.some (.str s, rest2)
        | Option.none => Option.none
      else if c = '[' then
        let rest2 := rest.dropWhile jsonWs
        match rest2 with
        | ']' :: rest3 => Option.some (.list [], rest3)
        | _ => jsonArrElems fuel rest2 []
      else if c = Char.ofNat 123 then
        let rest2 := rest.dropWhile jsonWs
        match rest2 with
        | b :: rest3 =>
          if b = Char.ofNat 125 then Option.some (.dict [], rest3)
          else jsonObjPairs fuel rest2 []
        | [] => Option.none
      else if "null".toList.isPrefixOf cs then Option.some (.none, cs.drop 4)
      else if "true".toList.isPrefixOf cs then Option.some (.bool true, cs.drop 4)
      else if "false".toList.isPrefixOf cs then Option.some (.bool false, cs.drop 5)
      else if c = '-' || c.isDigit then
        let (neg, cs2) := if c = '-' then (true, rest) else (false, cs)
        let intPart := cs2.takeWhile Char.isDigit
        let cs3 := cs2.dropWhile Char.isDigit
        if intPart.isEmpty then Option.none
        else
          match cs3 with
          | '.' :: cs4 =>
            let fracPart := cs4.takeWhile Char.isDigit
            let cs5 := cs4.dropWhile Char.isDigit
            if fracPart.isEmpty then Option.none
            else
              let q : ℚ := (digitsNat intPart : ℚ) + (digitsNat fracPart : ℚ) / (10 : ℚ) ^ fracPart.length
              Option.some (.float (if neg then -q else q), cs5)
          | _ =>
            let n : Int := (digitsNat intPart : Int)
            Option.some (.int (if neg then -n else n), cs3)
      else Option.none

/-- JSON string body after the opening quote; supports the simple escapes. -/
def jsonString (fuel : Nat) (cs : List Char) (acc : List Char) : Option (String × List Char) :=
  match fuel with
  | 0 => Option.none
  | fuel + 1 =>
    match cs with
    | [] => Option.none
    | c :: rest =>
      if c = Char.ofNat 34 then Option.some (String.mk acc.reverse, rest)
      else if c = Char.ofNat 92 then
        match rest with
        | [] => Option.none
        | e :: rest2 =>
          if e = Char.ofNat 34 then jsonString fuel rest2 (Char.ofNat 34 :: acc)
          else if e = Char.ofNat 92 then jsonString fuel rest2 (Char.ofNat 92 :: acc)
          else if e = '/' then jsonString fuel rest2 ('/' :: acc)
          else if e = 'n' then jsonString fuel rest2 (Char.ofNat 10 :: acc)
          else if e = 't' then jsonString fuel rest2 (Char.ofNat 9 :: acc)
          else if e = 'r' then jsonString fuel rest2 (Char.ofNat 13 :: acc)
          else if e = 'b' then jsonString fuel rest2 (Char.ofNat 8 :: acc)
          else if e = 'f' then jsonString fuel rest2 (Char.ofNat 12 :: acc)
          else Option.none
      else jsonString fuel rest (c :: acc)

/-- Array elements: expects a value, then `,` more or `]`. -/
def jsonArrElems (fuel : Nat) (cs : List Char) (acc : List PyVal) : Option (PyVal × List Char) :=
  match fuel with
  | 0 => Option.none
  | fuel + 1 =>
    match jsonVal fuel cs with
    | Option.none => Option.none
    | Option.some (v, rest) =>
      let rest := rest.dropWhile jsonWs
      match rest with
      | ',' :: rest2 => jsonArrElems fuel rest2 (acc ++ [v])
      | ']' :: rest2 => Option.some (.list (acc ++ [v]), rest2)
      | _ => Option.none

/-- Object pairs: expects `"key" : value`, then `,` more or closing brace. -/
def jsonObjPairs (fuel : Nat) (cs : List Char) (acc : List (String × PyVal)) :
    Option (PyVal × List Char) :=
  match fuel with
  | 0 => Option.none
  | fuel + 1 =>
    let cs := cs.dropWhile jsonWs
    match cs with
    | c :: rest =>
      if c = Char.ofNat 34 then
        match jsonString fuel rest [] with
        | Option.some (k, rest2) =>
          let rest2 := rest2.dropWhile jsonWs
          match rest2 with
          | ':' :: rest3 =>
            match jsonVal fuel rest3 with
            | Option.some (v, rest4) =>
              let rest4 := rest4.dropWhile jsonWs
              match rest4 with
              | ',' :: rest5 => jsonObjPairs fuel rest5 (acc ++ [(k, v)])
              | b :: rest5 =>
                if b = Char.ofNat 125 then Option.some (.dict (acc ++ [(k, v)]), rest5)
                else Option.none
              | [] => Option.none
            | Option.none => Option.none
          | _ => Option.none
        | Option.none => Option.none
      else Option.none
    | [] => Option.none

end

/-- `json.loads` model: a full-string parse of the supported JSON subset. -/
def jsonLoads (s : String) : Option PyVal :=
  match jsonVal (s.toList.length + 1) s.toList with
  | Option.some (v, rest) => if (rest.dropWhile jsonWs).isEmpty then Option.some v else Option.none
  | Option.none => Option.none

/-- The greedy `re.search(r'\[.*\]', content, re.DOTALL)` extraction used on
LLM guidance responses (app.py:775): from the first `[` to the last `]`,
unchanged content when there is no match. -/
def extractBracketed (s : String) : String :=
  let cs := s.toList
  match cs.findIdx? (fun c => c = '['), cs.reverse.findIdx? (fun c => c = ']') with
  | Option.some i, Option.some jr =>
    let j := cs.length - 1 - jr
    if i < j then String.mk ((cs.drop i).take (j - i + 1)) else s
  | _, _ => s

/-- Python `float(s)` on a string (decimal subset: optional sign, digits,
optional fraction; the exponent/inf/nan forms are never produced by the
analysed prompts and are modelled as parse failures). -/
def pyFloat? (s : String) : Option ℚ :=
  let cs := ((s.toList.dropWhile pySpace).reverse.dropWhile pySpace).reverse
  let (neg, cs2) :=
    match cs with
    | c :: rest => if c = '-' then (true, rest) else if c = '+' then (false, rest) else (false, cs)
    | [] => (false, cs)
  let intPart := cs2.takeWhile Char.isDigit
  let cs3 := cs2.dropWhile Char.isDigit
  match cs3 with
  | [] =>
    if intPart.isEmpty then Option.none
    else Option.some (if neg then -(digitsNat intPart : ℚ) else (digitsNat intPart : ℚ))
  | '.' :: rest =>
    let fracPart := rest.takeWhile Char.isDigit
    let rest2 := rest.dropWhile Char.isDigit
    if rest2.isEmpty ∧ ¬(intPart.isEmpty ∧ fracPart.isEmpty) then
      let q : ℚ := (digitsNat intPart : ℚ) + (digitsNat fracPart : ℚ) / (10 : ℚ) ^ fracPart.length
      Option.some (if neg then -q else q)
    else Option.none
  | _ => Option.none

/- ------------------------------------------------------------------ -/
/- Data model and the remaining scoring functions.                     -/
/- ------------------------------------------------------------------ -/

/-- Process configuration (app.py:16-19); an empty string models an unset
environment variable, matching the Python defaults and truthiness checks. -/
structure Config where
  deepseekApiKey : String := ""
  adminPassword : String := ""

/-- `ComplaintResponse` fields the service reads. -/
structure Complaint where
  description : Option String := none
  status : Option String := none

/-- `WeeklyPulse` fields the service reads. -/
structure WeeklyPulse where
  rating : Option ℚ := none
  feedback : Option String := none

/-- `StudentInterestDTO` fields the service reads. Hobby entries are loose
JSON values because the code defends against non-string entries. -/
structure Interests where
  hobbies : Option (List PyVal) := none
  professions : Option (List PyVal) := none
  accolades : Option (List PyVal) := none

/-- `StudentInfoDTO`: the snapshot fetched once per request. The
physical-profile and OCEAN structures only feed LLM prompt text, never a
returned value, so they are carried as loose JSON values. -/
structure StudentInfo where
  habitsSummary : Option HabitsSummary := none
  physicalProfile : Option PyVal := none
  interests : Option Interests := none
  iqScore : Option ℚ := none
  eqScore : Option ℚ := none
  oceanScore : Option PyVal := none
  unresolvedComplaints : Option (List Complaint) := none
  currentWeekPulse : Option WeeklyPulse := none

/-- Outcome of one LLM chat-completion call, as observed by the caller:
an exception, or an HTTP status together with the response's extracted
`choices[0].message.content` string. -/
inductive LLMOutcome where
  | exn
  | http (code : Nat) (content : String)

/-- The count-based complaint heuristic `min(30.0, len(complaints) * 5.0)`. -/
def complaintFallbackScore (complaints : List Complaint) : ℚ :=
  min 30 (5 * (complaints.length : ℚ))

/-- `analyze_complaints_with_deepseek` (app.py:407): empty list → 0; no API
key → count heuristic; otherwise LLM-parsed score clamped to [0,30] with the
count heuristic on any failure (and 0 when every description is empty). -/
def analyze_complaints_with_deepseek (cfg : Config) (llm : LLMOutcome)
    (complaints : List Complaint) : ℚ :=
  if complaints.isEmpty then 0
  else if cfg.deepseekApiKey = "" then complaintFallbackScore complaints
  else
    let texts := complaints.filterMap (fun c =>
      let desc := c.description.getD ""
      if desc = "" then Option.none else Option.some desc)
    if texts.isEmpty then 0
    else
      match llm with
      | .exn => complaintFallbackScore complaints
      | .http code content =>
        if code = 200 then
          match pyFloat? (pyStrip content) with
          | Option.some score => min 30 (max 0 score)
          | Option.none => complaintFallbackScore complaints
        else complaintFallbackScore complaints

/-- `calculate_pulse_stress_score` (app.py:487): missing pulse or missing or
non-positive rating → 18; rating ≥ 6 read on a 1-10 scale, rating < 6 on a
1-5 scale, each inverted onto [6,30] and clamped. -/
def calculate_pulse_stress_score (pulse : Option WeeklyPulse) : ℚ :=
  match pulse with
  | none => 18
  | some p =>
    match p.rating with
    | none => 18
    | some rating =>
      if rating ≤ 0 then 18
      else if 6 ≤ rating then min 30 (max 6 (30 - (rating - 1) * (24 / 9)))
      else min 30 (max 6 ((6 - rating) * 6))

/-- `calculate_stress_score` (app.py:522): habit + complaint + pulse scores,
clamped into [0,90]. -/
def calculate_stress_score (cfg : Config) (llm : LLMOutcome) (info : StudentInfo) : ℚ :=
  let habits_score := calculate_habits_stress_score info.habitsSummary
  let complaints_score :=
    analyze_complaints_with_deepseek cfg llm (info.unresolvedComplaints.getD [])
  let pulse_score := calculate_pulse_stress_score info.currentWeekPulse
  min 90 (max 0 (habits_score + complaints_score + pulse_score))

/-- `stress_score_to_percentage` (app.py:542): `int()`-truncation of
`score/90*100`, clamped into [0,100]. -/
def stress_score_to_percentage (stress_score : ℚ) : ℤ :=
  min 100 (max 0 (pyInt (stress_score / 90 * 100)))

/-- `get_stress_color` (app.py:550). -/
def get_stress_color (stress_score : ℚ) : String :=
  if stress_score ≤ 30 then "GREEN"
  else if stress_score ≤ 60 then "YELLOW"
  else if stress_score ≤ 75 then "ORANGE"
  else "RED"

/- ------------------------------------------------------------------ -/
/- Guidance generation (app.py:570-807).                               -/
/- ------------------------------------------------------------------ -/

/-- Python `hobby.replace('_', ' ')` (single-character pattern). -/
def underscoreToSpace (s : String) : String :=
  String.mk (s.toList.map (fun c => if c = '_' then ' ' else c))

/-- The fixed 2-item guidance fallback returned on any LLM-path failure
(app.py:796-799 and 804-807). -/
def fallbackHabits : List String :=
  ["Engage in at least 30 minutes of physical activity daily",
   "Practice 5 minutes of deep breathing exercises each morning"]

/-- The no-API-key heuristic branch of `generate_personalized_habits`
(app.py:583-613): first-hobby habit, screen-time habit, water-intake habit. -/
def heuristicHabits (info : StudentInfo) : List String :=
  let interests := info.interests.getD {}
  let hobbies := interests.hobbies.getD []
  let habit1 :=
    match hobbies with
    | h :: _ =>
      let hobby := match h with | .str s => s | v => pyStr v
      "Dedicate 30 minutes daily to practice " ++ underscoreToSpace (pyLower hobby)
        ++ " to develop your skills and passion"
    | [] => "Engage in at least 30 minutes of physical activity daily to boost energy and mood"
  let habits_summary := info.habitsSummary.getD {}
  let habit2 :=
    match habits_summary.averageScreenTimeHours with
    | some st =>
      if 4 < st then "Take a 10-minute break every hour from screens to rest your eyes and stretch"
      else "Practice 10 minutes of mindfulness meditation before starting your day"
    | none => "Practice 10 minutes of mindfulness meditation before starting your day"
  let habit3 :=
    match habits_summary.averageWaterIntake with
    | some w =>
      if w < 2 then "Drink at least 8 glasses of water throughout the day, keeping a water bottle nearby"
      else "Read for 20 minutes before bed instead of using electronic devices"
    | none => "Read for 20 minutes before bed instead of using electronic devices"
  ([habit1, habit2, habit3]).take 3

/-- Python `'description' in habit` + `habit['description']` on a parsed
JSON object: with duplicate keys `json.loads` keeps the last one. -/
def pyDictGet (kvs : List (String × PyVal)) (key : String) : Option PyVal :=
  (kvs.reverse.find? (fun kv => kv.1 = key)).map (fun kv => kv.2)

/-- Validation of one parsed habit entry (app.py:784-789): a non-blank
string, or a legacy `{description: …}` object, truncated to 200 chars. -/
def validateHabit (h : PyVal) : Option String :=
  match h with
  | .str s => if pyStrip s = "" then Option.none else Option.some (pyTake 200 s)
  | .dict kvs =>
    match pyDictGet kvs "description" with
    | Option.some v => Option.some (pyTake 200 (pyStr v))
    | Option.none => Option.none
  | _ => Option.none

/-- The validated habit list kept from a parsed response (app.py:783-789):
at most the first 3 entries survive validation. -/
def validatedHabits (habits : List PyVal) : List String :=
  (habits.take 3).filterMap validateHabit

/-- Handling of a 200-status LLM guidance response's content string
(app.py:770-799): strip, extract the first bracketed array substring,
`json.loads`, validate; any failure falls through to `fallbackHabits`. -/
def habitsFromContent (content : String) : List String :=
  let c := pyStrip content
  let c := extractBracketed c
  match jsonLoads c with
  | Option.some (.list habits) =>
    if habits.isEmpty then fallbackHabits
    else
      let validated := validatedHabits habits
      if validated.isEmpty then fallbackHabits else validated
  | Option.some _ => fallbackHabits
  | Option.none => fallbackHabits

/-- `generate_personalized_habits` (app.py:570): the heuristic branch when no
LLM credential is configured, otherwise the LLM path. The prompt text only
shapes the request, and the LLM outcome is an explicit oracle, so the prompt
assembly has no observable effect to model. -/
def generate_personalized_habits (cfg : Config) (llm : LLMOutcome)
    (info : StudentInfo) : List String :=
  if cfg.deepseekApiKey = "" then heuristicHabits info
  else
    match llm with
    | .exn => fallbackHabits
    | .http code content =>
      if code = 200 then habitsFromContent content else fallbackHabits

/- ------------------------------------------------------------------ -/
/- Auth session cache and external client (app.py:29-144, 810-850,     -/
/- 1021-1060).                                                         -/
/- ------------------------------------------------------------------ -/

/-- `get_jwt_token` (app.py:29): returns the cached token when present;
otherwise fails without a configured admin password, else performs one login
whose outcome (`some token` iff status 200 with a token field) is the
`loginResult` oracle; a fresh token is cached. Returns (token, new cache). -/
def get_jwt_token (cfg : Config) (loginResult : Option String)
    (cached : Option String) : Option String × Option String :=
  match cached with
  | some t => (some t, some t)
  | none =>
    if cfg.adminPassword = "" then (none, none)
    else
      match loginResult with
      | some t => (some t, some t)
      | none => (none, none)

/-- Outcome of one backend HTTP attempt: a status code with the raw body
text and (consulted only on the success status) its parsed JSON, or a
`requests` exception. -/
inductive HttpResult (α : Type) where
  | http (code : Nat) (body : String) (json : α)
  | netErr (msg : String)

/-- Result triple of `get_student_info`: `(data, error, status_code)`. -/
abbrev FetchResult := Option StudentInfo × Option String × Nat

/-- Observable trace of one client call: its returned value, the final
token-cache state, and how many backend HTTP requests were issued. -/
structure CallTrace (α : Type) where
  result : α
  finalToken : Option String
  requests : Nat

/-- Status dispatch at the end of `get_student_info` (app.py:133-142). -/
def studentInfoDispatch (code : Nat) (body : String) (json : StudentInfo) : FetchResult :=
  if code = 200 then (some json, none, 200)
  else if code = 400 then (none, some "Invalid student ID", 400)
  else if code = 404 then (none, some "Student not found", 404)
  else if code = 401 ∨ code = 403 then
    (none, some "Authentication failed. Check ADMIN_PASSWORD environment variable.", code)
  else (none, some ("Error: " ++ toString code ++ " - " ++ body), code)

/-- `get_student_info` (app.py:107): one authenticated GET; on a 401/403 the
token is cleared and the request retried once with freshly fetched auth;
the second response (or the only one) is then dispatched. `login1`/`login2`
and `resp1`/`resp2` are the oracles for the up-to-two login and data
exchanges; a network error raises and is mapped to a connection error. -/
def get_student_info (cfg : Config) (login1 login2 : Option String)
    (resp1 resp2 : HttpResult StudentInfo) (tok : Option String) :
    CallTrace FetchResult :=
  let tok1 := (get_jwt_token cfg login1 tok).2
  match resp1 with
  | .netErr m => ⟨(none, some ("Connection error: " ++ m), 500), tok1, 1⟩
  | .http c1 b1 j1 =>
    if c1 = 401 ∨ c1 = 403 then
      let tok2 := (get_jwt_token cfg login2 none).2
      match resp2 with
      | .netErr m => ⟨(none, some ("Connection error: " ++ m), 500), tok2, 2⟩
      | .http c2 b2 j2 => ⟨studentInfoDispatch c2 b2 j2, tok2, 2⟩
    else ⟨studentInfoDispatch c1 b1 j1, tok1, 1⟩

/-- The body posted to `POST /wellbeing/{id}` (app.py:1038-1042). -/
structure WellbeingPayload where
  stressPercentage : ℤ
  stressColour : String
  wellbeingGist : String
deriving Repr

/-- Observable trace of a save call: HTTP outcome, the payload that was
posted, the final token-cache state, and the number of backend requests. -/
structure SaveTrace (α : Type) where
  result : Option PyVal
  payload : α
  finalToken : Option String
  requests : Nat

/-- `save_wellbeing_data` (app.py:1021): derives percentage and colour, one
authenticated POST, `some` parsed body on 201 and `none` otherwise; there is
no 401/403 handling, no token invalidation and no retry. -/
def save_wellbeing_data (cfg : Config) (login : Option String)
    (resp : HttpResult PyVal) (tok : Option String)
    (stress_score : ℚ) (wellbeing_gist : String) : SaveTrace WellbeingPayload :=
  let payload : WellbeingPayload :=
    ⟨stress_score_to_percentage stress_score, get_stress_color stress_score, wellbeing_gist⟩
  let tok1 := (get_jwt_token cfg login tok).2
  match resp with
  | .netErr _ => ⟨none, payload, tok1, 1⟩
  | .http code _ json => if code = 201 then ⟨some json, payload, tok1, 1⟩ else ⟨none, payload, tok1, 1⟩

/-- The body posted to `POST /guidance/{id}` (app.py:829-832). -/
structure GuidancePayload where
  guidances : List String
  date : String
deriving Repr

/-- `save_guidances` (app.py:810): one authenticated POST with the guidance
list and a date (today's date when none is given — `today` is the clock
oracle); `some` parsed body on 201 and `none` otherwise; no 401/403
handling, no token invalidation and no retry. -/
def save_guidances (cfg : Config) (login : Option String)
    (resp : HttpResult PyVal) (tok : Option String)
    (guidances : List String) (guidance_date : Option String) (today : String) :
    SaveTrace GuidancePayload :=
  let payload : GuidancePayload := ⟨guidances, guidance_date.getD today⟩
  let tok1 := (get_jwt_token cfg login tok).2
  match resp with
  | .netErr _ => ⟨none, payload, tok1, 1⟩
  | .http code _ json => if code = 201 then ⟨some json, payload, tok1, 1⟩ else ⟨none, payload, tok1, 1⟩

/- ------------------------------------------------------------------ -/
/- Pipeline orchestrator (app.py:1126-1151).                           -/
/- ------------------------------------------------------------------ -/

/-- A unit of background work submitted to the thread pool. -/
inductive BgTask where
  | wellbeing (studentId : Nat) (info : Option StudentInfo)
  | guidance (studentId : Nat) (info : Option StudentInfo)

/-- Body of the synchronous HTTP response of `/student-mentor/{id}`. -/
inductive HttpBody where
  | empty
  | errorJson (msg : String)
deriving Repr

/-- Python truthiness of the `error` string slot (`if error:`). -/
def pyTruthy : Option String → Bool
  | some s => !(s == "")
  | none => false

/-- `process_student` (app.py:1126): fetch the snapshot once; on a truthy
error return `{error}` with the upstream status and schedule nothing; else
submit the wellbeing and guidance tasks and return 202 with an empty body.
The tasks' outcomes never reach this response (they are only submitted),
which the model reflects by the response being built before any task runs. -/
def process_student (cfg : Config) (login1 login2 : Option String)
    (resp1 resp2 : HttpResult StudentInfo) (tok : Option String)
    (student_id : Nat) : (HttpBody × Nat) × List BgTask × Option String :=
  let t := get_student_info cfg login1 login2 resp1 resp2 tok
  let info := t.result.1
  let error := t.result.2.1
  let code := t.result.2.2
  if pyTruthy error then ((.errorJson (error.getD ""), code), [], t.finalToken)
  else ((.empty, 202), [.wellbeing student_id info, .guidance student_id info], t.finalToken)

/-- A per-metric habit sub-scorer is well-formed: missing input scores the
neutral 1, and every score is one of 0, 1, 2. -/
def SubScoreOK {α : Type} (f : Option α → ℚ) : Prop :=
  f none = 1 ∧ ∀ x, f x = 0 ∨ f x = 1 ∨ f x = 2

/- ------------------------------------------------------------------ -/
/- Theorems.                                                           -/
/- ------------------------------------------------------------------ -/

lemma score_sleep_quality_ok : SubScoreOK score_sleep_quality := by
  refine ⟨rfl, fun x => ?_⟩
  cases x with
  | none => right; left; rfl
  | some q => simp only [score_sleep_quality]; split_ifs <;> simp

lemma score_sleep_hours_ok : SubScoreOK score_sleep_hours := by
  refine ⟨rfl, fun x => ?_⟩
  cases x with
  | none => right; left; rfl
  | some q => simp only [score_sleep_hours]; split_ifs <;> simp

lemma score_bedtime_ok : SubScoreOK score_bedtime := by
  refine ⟨rfl, fun x => ?_⟩
  cases x with
  | none => right; left; rfl
  | some q => simp only [score_bedtime]; split_ifs <;> simp

lemma score_wake_time_ok : SubScoreOK score_wake_time := by
  refine ⟨rfl, fun x => ?_⟩
  cases x with
  | none => right; left; rfl
  | some q => simp only [score_wake_time]; split_ifs <;> simp

lemma score_water_intake_ok : SubScoreOK score_water_intake := by
  refine ⟨rfl, fun x => ?_⟩
  cases x with
  | none => right; left; rfl
  | some q => simp only [score_water_intake]; split_ifs <;> simp

lemma score_junk_food_frequency_ok : SubScoreOK score_junk_food_frequency := by
  refine ⟨rfl, fun x => ?_⟩
  cases x with
  | none => right; left; rfl
  | some q => simp only [score_junk_food_frequency]; split_ifs <;> simp

lemma score_meals_consumed_ok : SubScoreOK score_meals_consumed := by
  refine ⟨rfl, fun x => ?_⟩
  cases x with
  | none => right; left; rfl
  | some q => simp only [score_meals_consumed]; split_ifs <;> simp

lemma score_exercise_hours_ok : SubScoreOK score_exercise_hours := by
  refine ⟨rfl, fun x => ?_⟩
  cases x with
  | none => right; left; rfl
  | some q => simp only [score_exercise_hours]; split_ifs <;> simp

lemma score_calories_burned_ok : SubScoreOK score_calories_burned := by
  refine ⟨rfl, fun x => ?_⟩
  cases x with
  | none => right; left; rfl
  | some q => simp only [score_calories_burned]; split_ifs <;> simp

lemma score_exercise_type_ok : SubScoreOK score_exercise_type := by
  refine ⟨rfl, fun x => ?_⟩
  cases x with
  | none => right; left; rfl
  | some q => simp only [score_exercise_type]; split_ifs <;> simp

lemma score_screen_time_hours_ok : SubScoreOK score_screen_time_hours := by
  refine ⟨rfl, fun x => ?_⟩
  cases x with
  | none => right; left; rfl
  | some q => simp only [score_screen_time_hours]; split_ifs <;> simp

lemma score_pre_sleep_screen_time_ok : SubScoreOK score_pre_sleep_screen_time := by
  refine ⟨rfl, fun x => ?_⟩
  cases x with
  | none => right; left; rfl
  | some q => simp only [score_pre_sleep_screen_time]; split_ifs <;> simp

lemma score_media_duration_ok : SubScoreOK score_media_duration := by
  refine ⟨rfl, fun x => ?_⟩
  cases x with
  | none => right; left; rfl
  | some q => simp only [score_media_duration]; split_ifs <;> simp

lemma score_educational_content_count_ok : SubScoreOK score_educational_content_count := by
  refine ⟨rfl, fun x => ?_⟩
  cases x with
  | none => right; left; rfl
  | some q => simp only [score_educational_content_count]; split_ifs <;> simp

lemma score_platform_ok : SubScoreOK score_platform := by
  refine ⟨rfl, fun x => ?_⟩
  cases x with
  | none => right; left; rfl
  | some q => simp only [score_platform]; split_ifs <;> simp

/-- C4: the habits score is the clamped-to-[0,30] sum of 15 independent
per-metric sub-scores, each in {0,1,2} with a missing metric scoring the
neutral 1; a wholly missing summary yields exactly 15.0; and the result lies
in [0,30] for every input. -/
theorem C4_habits_score_structure :
    calculate_habits_stress_score none = 15 ∧
    (∀ h, calculate_habits_stress_score (some h) = min 30 (max 0 (habitsSubScoreSum h))) ∧
    SubScoreOK score_sleep_quality ∧ SubScoreOK score_sleep_hours ∧
    SubScoreOK score_bedtime ∧ SubScoreOK score_wake_time ∧
    SubScoreOK score_water_intake ∧ SubScoreOK score_junk_food_frequency ∧
    SubScoreOK score_meals_consumed ∧ SubScoreOK score_exercise_hours ∧
    SubScoreOK score_calories_burned ∧ SubScoreOK score_exercise_type ∧
    SubScoreOK score_screen_time_hours ∧ SubScoreOK score_pre_sleep_screen_time ∧
    SubScoreOK score_media_duration ∧ SubScoreOK score_educational_content_count ∧
    SubScoreOK score_platform ∧
    ∀ h, 0 ≤ calculate_habits_stress_score h ∧ calculate_habits_stress_score h ≤ 30 := by
  refine ⟨rfl, fun h => rfl, score_sleep_quality_ok, score_sleep_hours_ok,
    score_bedtime_ok, score_wake_time_ok, score_water_intake_ok,
    score_junk_food_frequency_ok, score_meals_consumed_ok, score_exercise_hours_ok,
    score_calories_burned_ok, score_exercise_type_ok, score_screen_time_hours_ok,
    score_pre_sleep_screen_time_ok, score_media_duration_ok,
    score_educational_content_count_ok, score_platform_ok, fun h => ?_⟩
  cases h with
  | none => norm_num [calculate_habits_stress_score]
  | some hs => exact ⟨le_min (by norm_num) (le_max_left _ _), min_le_left _ _⟩

/-- C5: the pulse score is 18 exactly on a missing pulse or a missing or
non-positive rating; otherwise ratings ≥ 6 are read on a 1-10 scale via
`30 - (r-1)·(24/9)` and ratings < 6 on a 1-5 scale via `(6-r)·6`, each
clamped into [6,30]; and the result always lies in [6,30]. -/
theorem C5_pulse_score_spec :
    calculate_pulse_stress_score none = 18 ∧
    (∀ fb, calculate_pulse_stress_score (some ⟨none, fb⟩) = 18) ∧
    (∀ r fb, r ≤ 0 → calculate_pulse_stress_score (some ⟨some r, fb⟩) = 18) ∧
    (∀ r fb, 6 ≤ r → calculate_pulse_stress_score (some ⟨some r, fb⟩) =
      min 30 (max 6 (30 - (r - 1) * (24 / 9)))) ∧
    (∀ r fb, 0 < r → r < 6 → calculate_pulse_stress_score (some ⟨some r, fb⟩) =
      min 30 (max 6 ((6 - r) * 6))) ∧
    ∀ p, 6 ≤ calculate_pulse_stress_score p ∧ calculate_pulse_stress_score p ≤ 30 := by
  refine ⟨rfl, fun fb => rfl, fun r fb h => ?_, fun r fb h => ?_, fun r fb h0 h6 => ?_,
    fun p => ?_⟩
  · simp only [calculate_pulse_stress_score]
    rw [if_pos h]
  · simp only [calculate_pulse_stress_score]
    rw [if_neg (by linarith), if_pos h]
  · simp only [calculate_pulse_stress_score]
    rw [if_neg (by linarith), if_neg (by linarith)]
  · cases p with
    | none => norm_num [calculate_pulse_stress_score]
    | some p =>
      rcases p with ⟨r, fb⟩
      cases r with
      | none => norm_num [calculate_pulse_stress_score]
      | some r =>
        simp only [calculate_pulse_stress_score]
        split_ifs
        · norm_num
        · exact ⟨le_min (by norm_num) (le_max_left _ _), min_le_left _ _⟩
        · exact ⟨le_min (by norm_num) (le_max_left _ _), min_le_left _ _⟩

/-- Witness for C5 at concrete ratings 0, 7 and 2. -/
theorem C5_pulse_score_spec_witness :
    calculate_pulse_stress_score (some ⟨some 0, none⟩) = 18 ∧
    calculate_pulse_stress_score (some ⟨some 7, none⟩) =
      min 30 (max 6 (30 - ((7 : ℚ) - 1) * (24 / 9))) ∧
    calculate_pulse_stress_score (some ⟨some 2, none⟩) =
      min 30 (max 6 ((6 - (2 : ℚ)) * 6)) :=
  ⟨C5_pulse_score_spec.2.2.1 0 none le_rfl,
   C5_pulse_score_spec.2.2.2.1 7 none (by norm_num),
   C5_pulse_score_spec.2.2.2.2.1 2 none (by norm_num) (by norm_num)⟩

/-- C10: the pulse score is not monotone non-increasing in the rating across
the scale-inference boundary: rating 5 scores 6 while rating 6 scores 50/3
(= 30 - 5·(24/9) ≈ 16.67), so a better-reported mood yields a strictly
higher stress contribution. -/
theorem C10_pulse_nonmonotone :
    calculate_pulse_stress_score (some ⟨some 5, none⟩) = 6 ∧
    calculate_pulse_stress_score (some ⟨some 6, none⟩) = 50 / 3 ∧
    ∃ r1 r2 : ℚ, r1 < r2 ∧ calculate_pulse_stress_score (some ⟨some r1, none⟩) <
      calculate_pulse_stress_score (some ⟨some r2, none⟩) := by
  have e5 : calculate_pulse_stress_score (some ⟨some 5, none⟩) = 6 := by
    norm_num [calculate_pulse_stress_score, min_def, max_def]
  have e6 : calculate_pulse_stress_score (some ⟨some 6, none⟩) = 50 / 3 := by
    norm_num [calculate_pulse_stress_score, min_def, max_def]
  exact ⟨e5, e6, 5, 6, by norm_num, by rw [e5, e6]; norm_num⟩

/-- C9: for a snapshot with no habits summary, an empty complaint list and no
pulse, the stress score is 15 + 0 + 18 = 33, the percentage is 36 and the
colour is YELLOW, whatever configuration and LLM behaviour. -/
theorem C9_default_scenario (cfg : Config) (llm : LLMOutcome) :
    calculate_stress_score cfg llm { unresolvedComplaints := some [] } = 33 ∧
    stress_score_to_percentage 33 = 36 ∧
    get_stress_color 33 = "YELLOW" := by
  refine ⟨?_, ?_, ?_⟩
  · simp [calculate_stress_score, analyze_complaints_with_deepseek,
      calculate_habits_stress_score, calculate_pulse_stress_score]
    norm_num [min_def, max_def]
  · norm_num [stress_score_to_percentage, pyInt, min_def, max_def]
  · norm_num [get_stress_color]

/-- Counterexample to C2: at stress score 33 the code yields 36 (truncation
of 36.66…), while the claimed round-to-nearest formula yields 37. -/
theorem C2_counterexample :
    stress_score_to_percentage 33 = 36 ∧
    min 100 (max 0 (round ((33 : ℚ) / 90 * 100))) = (37 : ℤ) ∧
    (36 : ℤ) ≠ 37 := by
  refine ⟨?_, ?_, by norm_num⟩
  · norm_num [stress_score_to_percentage, pyInt, min_def, max_def]
  · norm_num [min_def, max_def, round_eq]

/-- C2 as amended: on [0,90] the derived percentage is the floor (Python
`int()` truncation, toward zero) of score/90·100 — not the rounding — and
the [0,100] clamp is then inert. -/
theorem C2_percentage_truncates (s : ℚ) (h0 : 0 ≤ s) (h90 : s ≤ 90) :
    stress_score_to_percentage s = ⌊s / 90 * 100⌋ := by
  have hq0 : 0 ≤ s / 90 * 100 := by positivity
  have hq100 : s / 90 * 100 ≤ 100 := by
    rw [div_mul_eq_mul_div, div_le_iff₀ (by norm_num : (0:ℚ) < 90)]
    linarith
  have hf0 : (0 : ℤ) ≤ ⌊s / 90 * 100⌋ := Int.floor_nonneg.2 hq0
  have hf100 : ⌊s / 90 * 100⌋ ≤ 100 := by
    have h := Int.floor_le_floor (α := ℚ) hq100
    simpa using h
  simp only [stress_score_to_percentage, pyInt, if_pos hq0]
  rw [max_eq_right hf0, min_eq_right hf100]

/-- Witness for C2's amended statement at score 45. -/
theorem C2_percentage_truncates_witness :
    stress_score_to_percentage 45 = ⌊(45 : ℚ) / 90 * 100⌋ :=
  C2_percentage_truncates 45 (by norm_num) (by norm_num)

lemma complaintFallbackScore_bounds (cs : List Complaint) :
    0 ≤ complaintFallbackScore cs ∧ complaintFallbackScore cs ≤ 30 :=
  ⟨le_min (by norm_num) (by positivity), min_le_left _ _⟩

/-- C6: the complaints score always lies in [0,30]; the empty list scores 0;
a non-empty list with no LLM credential scores min(30, 5·count); three
complaints with no credential score exactly 15. -/
theorem C6_complaints_score_spec :
    (∀ cfg llm cs, 0 ≤ analyze_complaints_with_deepseek cfg llm cs ∧
      analyze_complaints_with_deepseek cfg llm cs ≤ 30) ∧
    (∀ cfg llm, analyze_complaints_with_deepseek cfg llm [] = 0) ∧
    (∀ cfg llm cs, cs ≠ [] → cfg.deepseekApiKey = "" →
      analyze_complaints_with_deepseek cfg llm cs = min 30 (5 * (cs.length : ℚ))) ∧
    (∀ llm pw, analyze_complaints_with_deepseek ⟨"", pw⟩ llm
      [⟨some "x", none⟩, ⟨some "y", none⟩, ⟨some "z", none⟩] = 15) := by
  refine ⟨fun cfg llm cs => ?_, fun cfg llm => rfl, fun cfg llm cs hne hkey => ?_,
    fun llm pw => ?_⟩
  · simp only [analyze_complaints_with_deepseek]
    split_ifs
    · norm_num
    · exact complaintFallbackScore_bounds cs
    · norm_num
    · cases llm with
      | exn => exact complaintFallbackScore_bounds cs
      | http code content =>
        dsimp only
        split_ifs
        · cases hf : pyFloat? (pyStrip content) with
          | none => exact complaintFallbackScore_bounds cs
          | some q => exact ⟨le_min (by norm_num) (le_max_left _ _), min_le_left _ _⟩
        · exact complaintFallbackScore_bounds cs
  · simp only [analyze_complaints_with_deepseek, complaintFallbackScore]
    rw [if_neg (by simpa using hne), if_pos hkey]
  · norm_num [analyze_complaints_with_deepseek, complaintFallbackScore, min_def]

/-- Witness for C6 at a concrete one-element complaint list. -/
theorem C6_complaints_score_spec_witness :
    analyze_complaints_with_deepseek ⟨"", "pw"⟩ .exn [⟨some "a", none⟩] =
      min 30 (5 * ((1 : Nat) : ℚ)) :=
  C6_complaints_score_spec.2.2.1 ⟨"", "pw"⟩ .exn [⟨some "a", none⟩] (by simp) rfl

lemma pyTake_length_le (n : Nat) (s : String) : (pyTake n s).toList.length ≤ n := by
  simp only [pyTake]
  calc (String.mk (s.toList.take n)).toList.length = (s.toList.take n).length := rfl
    _ ≤ n := by simp [List.length_take]

lemma validateHabit_length (a : PyVal) (s : String) (h : validateHabit a = some s) :
    s.toList.length ≤ 200 := by
  cases a with
  | str t =>
    by_cases hstrip : pyStrip t = ""
    · simp [validateHabit, hstrip] at h
    · simp only [validateHabit, if_neg hstrip] at h
      rw [← Option.some.inj h]
      exact pyTake_length_le 200 t
  | dict kvs =>
    simp only [validateHabit] at h
    cases hd : pyDictGet kvs "description" with
    | none => rw [hd] at h; exact absurd h (by simp)
    | some v =>
      rw [hd] at h
      rw [← Option.some.inj h]
      exact pyTake_length_le 200 (pyStr v)
  | none => exact absurd h (by simp [validateHabit])
  | bool b => exact absurd h (by simp [validateHabit])
  | int n => exact absurd h (by simp [validateHabit])
  | float q => exact absurd h (by simp [validateHabit])
  | list xs => exact absurd h (by simp [validateHabit])

lemma validatedHabits_length_le (habits : List PyVal) : (validatedHabits habits).length ≤ 3 := by
  calc (validatedHabits habits).length ≤ (habits.take 3).length :=
        List.length_filterMap_le _ _
    _ ≤ 3 := by simp [List.length_take]

lemma validatedHabits_mem_length {habits : List PyVal} {s : String}
    (hs : s ∈ validatedHabits habits) : s.toList.length ≤ 200 := by
  obtain ⟨a, _, ha⟩ := List.mem_filterMap.1 hs
  exact validateHabit_length a s ha

lemma heuristicHabits_length (info : StudentInfo) : (heuristicHabits info).length = 3 := rfl

lemma habitsFromContent_shape (content : String) :
    habitsFromContent content = fallbackHabits ∨
    (1 ≤ (habitsFromContent content).length ∧ (habitsFromContent content).length ≤ 3 ∧
     ∀ s ∈ habitsFromContent content, s.toList.length ≤ 200) := by
  cases hj : jsonLoads (extractBracketed (pyStrip content)) with
  | none => left; simp [habitsFromContent, hj]
  | some v =>
    cases v with
    | list habits =>
      by_cases he : habits.isEmpty
      · left; simp [habitsFromContent, hj, he]
      · by_cases hv : (validatedHabits habits).isEmpty
        · left; simp [habitsFromContent, hj, he, hv]
        · right
          have hres : habitsFromContent content = validatedHabits habits := by
            simp [habitsFromContent, hj, he, hv]
          rw [hres]
          refine ⟨?_, validatedHabits_length_le habits, fun s hs => validatedHabits_mem_length hs⟩
          have : validatedHabits habits ≠ [] := by simpa [List.isEmpty_iff] using hv
          exact Nat.one_le_iff_ne_zero.2 (by simpa [List.length_eq_zero] using this)
    | none => left; simp [habitsFromContent, hj]
    | bool b => left; simp [habitsFromContent, hj]
    | int n => left; simp [habitsFromContent, hj]
    | float q => left; simp [habitsFromContent, hj]
    | str s => left; simp [habitsFromContent, hj]
    | dict kvs => left; simp [habitsFromContent, hj]

set_option maxRecDepth 8192 in
/-- Counterexample to C3: with no LLM credential, a 200-character hobby name
is interpolated untruncated, producing a guidance string 273 characters long
(> 200); and the LLM path can keep a single validated string, so the list is
not always 2-3 items of at most 200 characters. -/
theorem C3_counterexample :
    200 < ((generate_personalized_habits ⟨"", ""⟩ .exn
      { interests := some { hobbies := some [.str (String.mk (List.replicate 200 'x'))] } }
      ).headD "").toList.length ∧
    (generate_personalized_habits ⟨"key", ""⟩
      (.http 200 "[\"only one habit\"]") {}).length = 1 := by
  constructor
  · decide
  · rfl

/-- C3 as amended: with no LLM credential the heuristic returns exactly 3
strings (with no length bound enforced on the hobby-derived one); with a
credential the LLM path returns either the fixed 2-item fallback or 1 to 3
validated strings of at most 200 characters each. -/
theorem C3_guidance_shape (cfg : Config) (llm : LLMOutcome) (info : StudentInfo) :
    (cfg.deepseekApiKey = "" → (generate_personalized_habits cfg llm info).length = 3) ∧
    (cfg.deepseekApiKey ≠ "" →
      generate_personalized_habits cfg llm info = fallbackHabits ∨
      (1 ≤ (generate_personalized_habits cfg llm info).length ∧
       (generate_personalized_habits cfg llm info).length ≤ 3 ∧
       ∀ s ∈ generate_personalized_habits cfg llm info, s.toList.length ≤ 200)) := by
  constructor
  · intro hk
    simp only [generate_personalized_habits, if_pos hk]
    exact heuristicHabits_length info
  · intro hk
    cases llm with
    | exn => left; simp only [generate_personalized_habits, if_neg hk]
    | http code content =>
      simp only [generate_personalized_habits, if_neg hk]
      by_cases hc : code = 200
      · rw [if_pos hc]
        exact habitsFromContent_shape content
      · rw [if_neg hc]; left; rfl

/-- Witness for C3's amended statement: the heuristic branch on an empty
snapshot, and the LLM branch on a failed call. -/
theorem C3_guidance_shape_witness :
    (generate_personalized_habits ⟨"", ""⟩ .exn {}).length = 3 ∧
    (generate_personalized_habits ⟨"key", ""⟩ .exn {} = fallbackHabits ∨
      (1 ≤ (generate_personalized_habits ⟨"key", ""⟩ .exn {}).length ∧
       (generate_personalized_habits ⟨"key", ""⟩ .exn {}).length ≤ 3 ∧
       ∀ s ∈ generate_personalized_habits ⟨"key", ""⟩ .exn {}, s.toList.length ≤ 200)) :=
  ⟨(C3_guidance_shape ⟨"", ""⟩ .exn {}).1 rfl,
   (C3_guidance_shape ⟨"key", ""⟩ .exn {}).2 (by simp)⟩

/-- C7: with a credential configured, a 200 response whose content is the
JSON array ["a","b","c","d"] yields exactly the first three strings (each
well under the 200-character cap), and any content whose extracted bracketed
substring is malformed JSON yields the fixed 2-item fallback. -/
theorem C7_llm_guidance_parsing :
    generate_personalized_habits ⟨"key", ""⟩
      (.http 200 "[\"a\",\"b\",\"c\",\"d\"]") {} = ["a", "b", "c"] ∧
    (∀ s ∈ generate_personalized_habits ⟨"key", ""⟩
      (.http 200 "[\"a\",\"b\",\"c\",\"d\"]") {}, s.toList.length ≤ 200) ∧
    (∀ cfg content info, cfg.deepseekApiKey ≠ "" →
      jsonLoads (extractBracketed (pyStrip content)) = Option.none →
      generate_personalized_habits cfg (.http 200 content) info = fallbackHabits) := by
  refine ⟨by decide, by decide, fun cfg content info hk hjson => ?_⟩
  simp only [generate_personalized_habits, if_neg hk]
  simp [habitsFromContent, hjson]

/-- Witness for C7 at the malformed content "[oops]". -/
theorem C7_llm_guidance_parsing_witness :
    generate_personalized_habits ⟨"key", ""⟩ (.http 200 "[oops]") {} = fallbackHabits :=
  C7_llm_guidance_parsing.2.2 ⟨"key", ""⟩ "[oops]" {} (by simp) rfl

/-- Counterexample to C1: a 401 on the post-wellbeing operation is terminal
after a single request — the cached token is kept, nothing is retried. -/
theorem C1_counterexample :
    (save_wellbeing_data ⟨"", "pw"⟩ none (.http 401 "denied" .none)
      (some "tok") 33 "gist").requests = 1 ∧
    (save_wellbeing_data ⟨"", "pw"⟩ none (.http 401 "denied" .none)
      (some "tok") 33 "gist").finalToken = some "tok" ∧
    (save_wellbeing_data ⟨"", "pw"⟩ none (.http 401 "denied" .none)
      (some "tok") 33 "gist").result = none :=
  ⟨rfl, rfl, rfl⟩

/-- C1 as amended: only the fetch operation has retry-on-unauthorized
semantics — on a first 401/403 it clears the token, re-authenticates and
retries exactly once, a second consecutive 401/403 being terminal, and it
never issues more than 2 requests; the post-wellbeing and post-guidance
operations always issue exactly one request and never invalidate a cached
token. -/
theorem C1_retry_semantics :
    (∀ cfg l1 l2 c b j r2 tok, (c = 401 ∨ c = 403) →
      (get_student_info cfg l1 l2 (.http c b j) r2 tok).requests = 2 ∧
      (get_student_info cfg l1 l2 (.http c b j) r2 tok).finalToken =
        (get_jwt_token cfg l2 none).2) ∧
    (∀ cfg l1 l2 c b j c2 b2 j2 tok, (c = 401 ∨ c = 403) → (c2 = 401 ∨ c2 = 403) →
      (get_student_info cfg l1 l2 (.http c b j) (.http c2 b2 j2) tok).result =
        (none, some "Authentication failed. Check ADMIN_PASSWORD environment variable.", c2)) ∧
    (∀ cfg l1 l2 c b j r2 tok, ¬(c = 401 ∨ c = 403) →
      (get_student_info cfg l1 l2 (.http c b j) r2 tok).requests = 1) ∧
    (∀ cfg l1 l2 r1 r2 tok, (get_student_info cfg l1 l2 r1 r2 tok).requests ≤ 2) ∧
    (∀ cfg l resp tok ss g, (save_wellbeing_data cfg l resp tok ss g).requests = 1) ∧
    (∀ cfg l resp tok ss g t, tok = some t →
      (save_wellbeing_data cfg l resp tok ss g).finalToken = some t) ∧
    (∀ cfg l resp tok gs gd td, (save_guidances cfg l resp tok gs gd td).requests = 1) ∧
    (∀ cfg l resp tok gs gd td t, tok = some t →
      (save_guidances cfg l resp tok gs gd td).finalToken = some t) := by
  refine ⟨fun cfg l1 l2 c b j r2 tok h => ?_, fun cfg l1 l2 c b j c2 b2 j2 tok h h2 => ?_,
    fun cfg l1 l2 c b j r2 tok h => ?_, fun cfg l1 l2 r1 r2 tok => ?_,
    fun cfg l resp tok ss g => ?_, fun cfg l resp tok ss g t ht => ?_,
    fun cfg l resp tok gs gd td => ?_, fun cfg l resp tok gs gd td t ht => ?_⟩
  · simp only [get_student_info]
    rw [if_pos h]
    cases r2 <;> exact ⟨rfl, rfl⟩
  · simp only [get_student_info]
    rw [if_pos h]
    rcases h2 with rfl | rfl <;> simp [studentInfoDispatch]
  · simp only [get_student_info]
    rw [if_neg h]
  · cases r1 with
    | netErr m => simp [get_student_info]
    | http c b j =>
      simp only [get_student_info]
      split_ifs
      · cases r2 <;> simp
      · simp
  · cases resp with
    | netErr m => rfl
    | http c b j => simp only [save_wellbeing_data]; split_ifs <;> rfl
  · subst ht
    cases resp with
    | netErr m => rfl
    | http c b j => simp only [save_wellbeing_data]; split_ifs <;> rfl
  · cases resp with
    | netErr m => rfl
    | http c b j => simp only [save_guidances]; split_ifs <;> rfl
  · subst ht
    cases resp with
    | netErr m => rfl
    | http c b j => simp only [save_guidances]; split_ifs <;> rfl

/-- Witness for C1's amended statement: a 401 then 403 fetch makes exactly
two requests and is terminal with the auth failure message; a failed save
makes one request. -/
theorem C1_retry_semantics_witness :
    (get_student_info ⟨"", ""⟩ none none (.http 401 "" {}) (.http 403 "x" {})
      (some "t")).requests = 2 ∧
    (get_student_info ⟨"", ""⟩ none none (.http 401 "" {}) (.http 403 "x" {})
      (some "t")).result =
      (none, some "Authentication failed. Check ADMIN_PASSWORD environment variable.", 403) ∧
    (save_wellbeing_data ⟨"", ""⟩ none (.netErr "down") none 0 "").requests = 1 :=
  ⟨(C1_retry_semantics.1 ⟨"", ""⟩ none none 401 "" {} (.http 403 "x" {})
      (some "t") (Or.inl rfl)).1,
   C1_retry_semantics.2.1 ⟨"", ""⟩ none none 401 "" {} 403 "x" {} (some "t")
      (Or.inl rfl) (Or.inr rfl),
   C1_retry_semantics.2.2.2.2.1 ⟨"", ""⟩ none (.netErr "down") none 0 ""⟩

lemma append_ne_empty (a b : String) (ha : a.length ≠ 0) : a ++ b ≠ "" := by
  intro he
  have hl := congrArg String.length he
  rw [String.length_append] at hl
  have h0 : ("" : String).length = 0 := rfl
  rw [h0] at hl
  omega

lemma studentInfoDispatch_error_nonempty (c : Nat) (b : String) (j : StudentInfo) (msg : String)
    (h : (studentInfoDispatch c b j).2.1 = some msg) : msg ≠ "" := by
  unfold studentInfoDispatch at h
  by_cases h200 : c = 200
  · rw [if_pos h200] at h; exact absurd h (by simp)
  rw [if_neg h200] at h
  by_cases h400 : c = 400
  · rw [if_pos h400] at h
    rw [← Option.some.inj h]; decide
  rw [if_neg h400] at h
  by_cases h404 : c = 404
  · rw [if_pos h404] at h
    rw [← Option.some.inj h]; decide
  rw [if_neg h404] at h
  by_cases hauth : c = 401 ∨ c = 403
  · rw [if_pos hauth] at h
    rw [← Option.some.inj h]; decide
  · rw [if_neg hauth] at h
    rw [← Option.some.inj h]
    apply append_ne_empty
    rw [String.length_append, String.length_append]
    have h7 : ("Error: " : String).length = 7 := rfl
    omega

lemma get_student_info_error_nonempty (cfg : Config) (l1 l2 : Option String)
    (r1 r2 : HttpResult StudentInfo) (tok : Option String) (msg : String)
    (h : (get_student_info cfg l1 l2 r1 r2 tok).result.2.1 = some msg) : msg ≠ "" := by
  cases r1 with
  | netErr m =>
    simp only [get_student_info] at h
    obtain rfl := Option.some.inj h
    apply append_ne_empty
    have h18 : ("Connection error: " : String).length = 18 := rfl
    omega
  | http c b j =>
    simp only [get_student_info] at h
    split_ifs at h
    · cases r2 with
      | netErr m =>
        obtain rfl := Option.some.inj h
        apply append_ne_empty
        have h18 : ("Connection error: " : String).length = 18 := rfl
        omega
      | http c2 b2 j2 => exact studentInfoDispatch_error_nonempty c2 b2 j2 msg h
    · exact studentInfoDispatch_error_nonempty c b j msg h

/-- C8: if the snapshot fetch yields an error, the handler's only observable
result is that error message with the upstream status code, and no
background task is scheduled; if the fetch succeeds, exactly two background
tasks (wellbeing and guidance) are submitted and the handler returns 202
with an empty body, built before either task runs. -/
theorem C8_orchestrator (cfg : Config) (l1 l2 : Option String)
    (r1 r2 : HttpResult StudentInfo) (tok : Option String) (sid : Nat) :
    (∀ msg, (get_student_info cfg l1 l2 r1 r2 tok).result.2.1 = some msg →
      process_student cfg l1 l2 r1 r2 tok sid =
        ((.errorJson msg, (get_student_info cfg l1 l2 r1 r2 tok).result.2.2), [],
         (get_student_info cfg l1 l2 r1 r2 tok).finalToken)) ∧
    ((get_student_info cfg l1 l2 r1 r2 tok).result.2.1 = none →
      process_student cfg l1 l2 r1 r2 tok sid =
        ((.empty, 202),
         [.wellbeing sid (get_student_info cfg l1 l2 r1 r2 tok).result.1,
          .guidance sid (get_student_info cfg l1 l2 r1 r2 tok).result.1],
         (get_student_info cfg l1 l2 r1 r2 tok).finalToken)) := by
  constructor
  · intro msg h
    have hne := get_student_info_error_nonempty cfg l1 l2 r1 r2 tok msg h
    simp [process_student, h, pyTruthy, hne]
  · intro h
    simp [process_student, h, pyTruthy]

/-- Witness for C8: a 404 fetch returns the error synchronously with no
task; a 200 fetch schedules the two tasks and returns 202 empty. -/
theorem C8_orchestrator_witness :
    process_student ⟨"", ""⟩ none none (.http 404 "" {}) (.http 200 "" {}) none 7 =
      ((.errorJson "Student not found", 404), [], none) ∧
    process_student ⟨"", ""⟩ none none (.http 200 "" {}) (.http 200 "" {}) none 7 =
      ((.empty, 202), [.wellbeing 7 (some {}), .guidance 7 (some {})], none) :=
  ⟨(C8_orchestrator ⟨"", ""⟩ none none (.http 404 "" {}) (.http 200 "" {}) none 7).1
      "Student not found" rfl,
   (C8_orchestrator ⟨"", ""⟩ none none (.http 200 "" {}) (.http 200 "" {}) none 7).2 rfl⟩

end StudentMentor
